import Mathlib

/-!
# Verification of the hand-tracking gesture core (`useHandTracking`)

Shallow embedding of the gesture-estimation core of the Computer-Vision-AR-UI
repository: per-hand pinch filtering (exponential smoothing, hysteresis
thresholds, frame debouncing), the two-hand aggregator (role assignment,
pull-distance gate) and the per-frame driver `onResults` with its zero-hands
reset.

JavaScript numbers are modelled as elements of a linear ordered field `α`
(instantiated at `ℚ` for decidable concrete runs and at `ℝ` when `Math.sqrt`
must really be the square root).  `Math.sqrt` is passed as an explicit
function parameter `sqrt : α → α`; theorems quantifying over `sqrt` hold in
particular for `Real.sqrt`.  A JavaScript crash (property access on
`undefined`, e.g. `landmarks[4].x` on a short landmark list) is modelled by
`Option`: `none` means the frame handler throws.
-/

namespace HandTracking

/-- A 3D point `{x, y, z}` as produced by the landmark detector and used for
smoothed positions (source: `HandLandmark` in `@/types/hand-tracking`). -/
structure HandLandmark (α : Type) where
  x : α
  y : α
  z : α
deriving DecidableEq, Repr

/-- A 2D point `{x, y}` (used for `centerPosition`). -/
structure Point2 (α : Type) where
  x : α
  y : α
deriving DecidableEq, Repr

/-- Modelled from the spec: the distinguished landmark index `THUMB_TIP` of
`HAND_LANDMARKS` in `@/types/hand-tracking` (that module is not among the
provided sources).  The value 4 follows the spec/claims and the MediaPipe
connection table drawn in `drawLandmarks` (thumb chain `[0,1],[1,2],[2,3],[3,4]`). -/
def THUMB_TIP : Nat := 4

/-- Modelled from the spec: the distinguished landmark index `INDEX_TIP` of
`HAND_LANDMARKS` (index chain `[5,6],[6,7],[7,8]` ends at 8). -/
def INDEX_TIP : Nat := 8

/-- `GestureState` emitted per hand per frame. -/
structure GestureState (α : Type) where
  isGrabbing : Bool
  handPosition : Option (HandLandmark α)
  pinchDistance : α
  confidence : α
deriving DecidableEq, Repr

/-- `TwoHandGestureState` emitted per frame. -/
structure TwoHandGestureState (α : Type) where
  bothPinching : Bool
  pullDistance : α
  centerPosition : Option (Point2 α)
  leftHand : Option (GestureState α)
  rightHand : Option (GestureState α)
  isPulling : Bool
deriving DecidableEq, Repr

variable {α : Type} [LinearOrderedField α]

/-- `PINCH_THRESHOLD = 0.055` (T_close). -/
def PINCH_THRESHOLD (α : Type) [LinearOrderedField α] : α := 55 / 1000

/-- `PINCH_RELEASE_THRESHOLD = 0.16` (T_open). -/
def PINCH_RELEASE_THRESHOLD (α : Type) [LinearOrderedField α] : α := 16 / 100

/-- `STATE_CHANGE_FRAMES = 2`: minimum frames to confirm a state change. -/
def STATE_CHANGE_FRAMES : Nat := 2

/-- `POSITION_SMOOTHING = 0.4`. -/
def POSITION_SMOOTHING (α : Type) [LinearOrderedField α] : α := 4 / 10

/-- `PINCH_SMOOTHING = 0.5`. -/
def PINCH_SMOOTHING (α : Type) [LinearOrderedField α] : α := 5 / 10

/-- `MIN_PULL_DISTANCE = 0.15`. -/
def MIN_PULL_DISTANCE (α : Type) [LinearOrderedField α] : α := 15 / 100

/-- The per-slot mutable filter state: the refs
`wasGrabbingRef(…PerHand)`, `stateChangeCounterRef(…PerHand)`,
`pendingStateRef(…PerHand)`, `smoothedPositionRef(…PerHand)` and
`smoothedPinchRef(…PerHand)` of `useHandTracking`. -/
structure PinchState (α : Type) where
  wasGrabbing : Bool
  stateChangeCounter : Nat
  pendingState : Option Bool
  smoothedPosition : Option (HandLandmark α)
  smoothedPinchDistance : α
deriving DecidableEq, Repr

/-- The initial / reset value of a slot's `PinchState` (the values the refs
are initialised to, and the values lazy dictionary initialisation supplies
after the dictionaries are reset to `{}`). -/
def initialPinchState (α : Type) [LinearOrderedField α] : PinchState α :=
  { wasGrabbing := false
    stateChangeCounter := 0
    pendingState := none
    smoothedPosition := none
    smoothedPinchDistance := 1 }

/-- Hysteresis target computation (source lines: `let targetState = wasGrabbing;
if (!wasGrabbing && pinchDistance < PINCH_THRESHOLD) targetState = true;
else if (wasGrabbing && pinchDistance > PINCH_RELEASE_THRESHOLD) targetState = false;`). -/
def hysteresisTarget (wasGrabbing : Bool) (pinchDistance : α) : Bool :=
  if wasGrabbing = false ∧ pinchDistance < PINCH_THRESHOLD α then true
  else if wasGrabbing = true ∧ pinchDistance > PINCH_RELEASE_THRESHOLD α then false
  else wasGrabbing

/-- Debouncing (source: the `if (targetState !== wasGrabbing) { … }` block):
returns the new `(wasGrabbing, pendingState, stateChangeCounter)`. -/
def debounce (wasGrabbing : Bool) (pendingState : Option Bool)
    (stateChangeCounter : Nat) (targetState : Bool) : Bool × Option Bool × Nat :=
  if targetState ≠ wasGrabbing then
    if pendingState = some targetState then
      if STATE_CHANGE_FRAMES ≤ stateChangeCounter + 1 then (targetState, none, 0)
      else (wasGrabbing, pendingState, stateChangeCounter + 1)
    else (wasGrabbing, some targetState, 1)
  else (wasGrabbing, none, 0)

/-- Exponential smoothing of the (already transformed) position
(`smoothedPosition === null` seeds directly from the raw value). -/
def smoothPosition (prev : Option (HandLandmark α)) (raw : HandLandmark α) : HandLandmark α :=
  match prev with
  | none => raw
  | some p =>
      { x := p.x + POSITION_SMOOTHING α * (raw.x - p.x)
        y := p.y + POSITION_SMOOTHING α * (raw.y - p.y)
        z := p.z + POSITION_SMOOTHING α * (raw.z - p.z) }

/-- The body of `processHandLandmarks` (per-hand filter) after
`calculatePinchDistance` / `calculateHandCenter` have produced the raw pinch
distance and the raw hand position: coordinate transform
`rawX = -(x*2 - 1)`, `rawY = -(y*2 - 1)`, `rawZ = z`, exponential smoothing
of position and pinch distance, hysteresis target, debounce, and the emitted
`GestureState`.  Returns the updated slot state and the emitted gesture. -/
def processHandLandmarksCore (rawPinchDistance : α) (rawHandPosition : HandLandmark α)
    (s : PinchState α) : PinchState α × GestureState α :=
  let raw : HandLandmark α :=
    { x := -(rawHandPosition.x * 2 - 1)
      y := -(rawHandPosition.y * 2 - 1)
      z := rawHandPosition.z }
  let smoothedPosition := smoothPosition s.smoothedPosition raw
  let pinchDistance :=
    s.smoothedPinchDistance + PINCH_SMOOTHING α * (rawPinchDistance - s.smoothedPinchDistance)
  let targetState := hysteresisTarget s.wasGrabbing pinchDistance
  let d := debounce s.wasGrabbing s.pendingState s.stateChangeCounter targetState
  ({ wasGrabbing := d.1
     stateChangeCounter := d.2.2
     pendingState := d.2.1
     smoothedPosition := some smoothedPosition
     smoothedPinchDistance := pinchDistance },
   { isGrabbing := d.1
     handPosition := some smoothedPosition
     pinchDistance := pinchDistance
     confidence := 1 })

/-- The body of the backward-compatible single-hand `processLandmarks` after
its `calculatePinchDistance` / `calculateHandCenter` calls.  The source
duplicates the per-hand filter logic verbatim over the single-hand refs;
the duplication is kept here. -/
def processLandmarksCore (rawPinchDistance : α) (rawHandPosition : HandLandmark α)
    (s : PinchState α) : PinchState α × GestureState α :=
  let raw : HandLandmark α :=
    { x := -(rawHandPosition.x * 2 - 1)
      y := -(rawHandPosition.y * 2 - 1)
      z := rawHandPosition.z }
  let smoothedPosition := smoothPosition s.smoothedPosition raw
  let pinchDistance :=
    s.smoothedPinchDistance + PINCH_SMOOTHING α * (rawPinchDistance - s.smoothedPinchDistance)
  let targetState := hysteresisTarget s.wasGrabbing pinchDistance
  let d := debounce s.wasGrabbing s.pendingState s.stateChangeCounter targetState
  ({ wasGrabbing := d.1
     stateChangeCounter := d.2.2
     pendingState := d.2.1
     smoothedPosition := some smoothedPosition
     smoothedPinchDistance := pinchDistance },
   { isGrabbing := d.1
     handPosition := some smoothedPosition
     pinchDistance := pinchDistance
     confidence := 1 })

/-- `calculatePinchDistance`: Euclidean 3D distance between `landmarks[THUMB_TIP]`
and `landmarks[INDEX_TIP]`.  In JavaScript, indexing past the end yields
`undefined` and the subsequent `.x` access throws: that is modelled by `none`. -/
def calculatePinchDistance (sqrt : α → α) (landmarks : List (HandLandmark α)) : Option α :=
  match landmarks.get? THUMB_TIP, landmarks.get? INDEX_TIP with
  | some thumbTip, some indexTip =>
      let dx := thumbTip.x - indexTip.x
      let dy := thumbTip.y - indexTip.y
      let dz := thumbTip.z - indexTip.z
      some (sqrt (dx * dx + dy * dy + dz * dz))
  | _, _ => none

/-- `calculateHandCenter`: midpoint of thumb tip and index tip (`none` models
the throw on a missing landmark index). -/
def calculateHandCenter (landmarks : List (HandLandmark α)) : Option (HandLandmark α) :=
  match landmarks.get? THUMB_TIP, landmarks.get? INDEX_TIP with
  | some thumbTip, some indexTip =>
      some { x := (thumbTip.x + indexTip.x) / 2
             y := (thumbTip.y + indexTip.y) / 2
             z := (thumbTip.z + indexTip.z) / 2 }
  | _, _ => none

/-- `processHandLandmarks(landmarks, handIndex)` for one slot: the two geometry
helpers followed by `processHandLandmarksCore` on the slot's state.  `none`
models the crash propagating out of the frame handler. -/
def processHandLandmarks (sqrt : α → α) (landmarks : List (HandLandmark α))
    (s : PinchState α) : Option (PinchState α × GestureState α) :=
  match calculatePinchDistance sqrt landmarks, calculateHandCenter landmarks with
  | some rawPinchDistance, some rawHandPosition =>
      some (processHandLandmarksCore rawPinchDistance rawHandPosition s)
  | _, _ => none

/-- The backward-compatible single-hand `processLandmarks(landmarks)`. -/
def processLandmarks (sqrt : α → α) (landmarks : List (HandLandmark α))
    (s : PinchState α) : Option (PinchState α × GestureState α) :=
  match calculatePinchDistance sqrt landmarks, calculateHandCenter landmarks with
  | some rawPinchDistance, some rawHandPosition =>
      some (processLandmarksCore rawPinchDistance rawHandPosition s)
  | _, _ => none

/-- Run the per-hand filter core over a sequence of frames for one slot,
feeding each frame's raw pinch distance and raw hand position; returns the
final state and the emitted gestures. -/
def runCore (s : PinchState α) : List (α × HandLandmark α) → PinchState α × List (GestureState α)
  | [] => (s, [])
  | (d, p) :: rest =>
      let step := processHandLandmarksCore d p s
      let next := runCore step.1 rest
      (next.1, step.2 :: next.2)

/-- The slot states after each frame of a `runCore` run. -/
def coreTrace (s : PinchState α) : List (α × HandLandmark α) → List (PinchState α)
  | [] => []
  | (d, p) :: rest =>
      let s' := (processHandLandmarksCore d p s).1
      s' :: coreTrace s' rest

/-- Run the landmark-level per-hand filter over a sequence of landmark lists
for one slot (`none` as soon as one frame crashes). -/
def runHand (sqrt : α → α) (s : PinchState α) :
    List (List (HandLandmark α)) → Option (PinchState α × List (GestureState α))
  | [] => some (s, [])
  | lm :: rest =>
      match processHandLandmarks sqrt lm s with
      | none => none
      | some sg =>
          match runHand sqrt sg.1 rest with
          | none => none
          | some next => some (next.1, sg.2 :: next.2)

/-- The role-assignment phase of `processTwoHandGesture`: the two mutation
blocks assigning `leftHand` / `rightHand` from the handedness labels, with
the x-position fallback for hand 0 and the first-seen fallback for hand 1
(a label carried by hand 1 simply overwrites the role).  Returns
`(leftHand, rightHand)`. -/
def assignRoles (hand0 hand1 : Option (GestureState α))
    (handedness0 handedness1 : Option String) :
    Option (GestureState α) × Option (GestureState α) :=
  let lr0 : Option (GestureState α) × Option (GestureState α) :=
    match hand0 with
    | none => (none, none)
    | some h0 =>
        if handedness0 = some "Left" then (some h0, none)
        else if handedness0 = some "Right" then (none, some h0)
        else
          -- Fallback: use x position to determine left/right
          match h0.handPosition with
          | none => (none, some h0)
          | some p0 =>
              match hand1 with
              | none => (some h0, none)
              | some h1 =>
                  match h1.handPosition with
                  | none => (some h0, none)
                  | some p1 => if p0.x < p1.x then (some h0, none) else (none, some h0)
  match hand1 with
  | none => lr0
  | some h1 =>
      if handedness1 = some "Left" then (some h1, lr0.2)
      else if handedness1 = some "Right" then (lr0.1, some h1)
      else
        match lr0.1 with
        | none => (some h1, lr0.2)
        | some _ => (lr0.1, some h1)

/-- The derived-values phase of `processTwoHandGesture` on the assigned
`leftHand` / `rightHand`: `bothPinching`, `pullDistance`, `centerPosition`
and the `isPulling` gate. -/
def derivedTwoHand (sqrt : α → α) (leftHand rightHand : Option (GestureState α)) :
    TwoHandGestureState α :=
  let bothPinching : Bool :=
    (match leftHand with | some l => l.isGrabbing | none => false) &&
    (match rightHand with | some r => r.isGrabbing | none => false)
  let dc : α × Option (Point2 α) :=
    match Option.bind leftHand GestureState.handPosition,
          Option.bind rightHand GestureState.handPosition with
    | some lp, some rp =>
        let dx := rp.x - lp.x
        let dy := rp.y - lp.y
        (sqrt (dx * dx + dy * dy),
         some { x := (lp.x + rp.x) / 2, y := (lp.y + rp.y) / 2 })
    | _, _ => (0, none)
  let pullDistance := dc.1
  let isPulling : Bool := bothPinching && decide (pullDistance > MIN_PULL_DISTANCE α)
  { bothPinching := bothPinching
    pullDistance := pullDistance
    centerPosition := dc.2
    leftHand := leftHand
    rightHand := rightHand
    isPulling := isPulling }

/-- `processTwoHandGesture(hand0, hand1, handedness0, handedness1)`:
left/right role assignment followed by the derived values. -/
def processTwoHandGesture (sqrt : α → α) (hand0 hand1 : Option (GestureState α))
    (handedness0 handedness1 : Option String) : TwoHandGestureState α :=
  derivedTwoHand sqrt (assignRoles hand0 hand1 handedness0 handedness1).1
    (assignRoles hand0 hand1 handedness0 handedness1).2

/-- One detector result frame: `results.multiHandLandmarks` and the handedness
labels `results.multiHandedness[i].label`. -/
structure Frame (α : Type) where
  multiHandLandmarks : List (List (HandLandmark α))
  multiHandedness : List (Option String)
deriving Repr

/-- The whole mutable state of `useHandTracking` relevant to gesture
estimation: the single-hand refs (as one `PinchState`), the per-hand ref
dictionaries (as a total function defaulting to the lazily-initialised
values), and the latest emitted snapshots. -/
structure TrackerState (α : Type) where
  single : PinchState α
  perHand : Nat → PinchState α
  gesture : GestureState α
  twoHandGesture : TwoHandGestureState α
  prevPullDistance : α

/-- The `GestureState` emitted when no hand is present (and the initial value
of the `gesture` react state). -/
def noHandGesture (α : Type) [LinearOrderedField α] : GestureState α :=
  { isGrabbing := false, handPosition := none, pinchDistance := 1, confidence := 0 }

/-- The reset / initial `TwoHandGestureState`. -/
def resetTwoHandGesture (α : Type) [LinearOrderedField α] : TwoHandGestureState α :=
  { bothPinching := false
    pullDistance := 0
    centerPosition := none
    leftHand := none
    rightHand := none
    isPulling := false }

/-- The initial `TrackerState` of a tracking session. -/
def initialTrackerState (α : Type) [LinearOrderedField α] : TrackerState α :=
  { single := initialPinchState α
    perHand := fun _ => initialPinchState α
    gesture := noHandGesture α
    twoHandGesture := resetTwoHandGesture α
    prevPullDistance := 0 }

/-- The `for (let i = 0; …)` loop of `onResults`: process every reported hand
with `processHandLandmarks(handLandmarks, i)`, mutating the per-hand slot
states and collecting the returned gestures in order. -/
def processAllHands (sqrt : α → α) :
    List (List (HandLandmark α)) → Nat → (Nat → PinchState α) →
    Option ((Nat → PinchState α) × List (GestureState α))
  | [], _, perHand => some (perHand, [])
  | lm :: rest, i, perHand =>
      match processHandLandmarks sqrt lm (perHand i) with
      | none => none
      | some sg =>
          match processAllHands sqrt rest (i + 1)
              (fun j => if j = i then sg.1 else perHand j) with
          | none => none
          | some next => some (next.1, sg.2 :: next.2)

/-- The gesture-relevant behaviour of the `onResults` frame callback:
if at least one hand is reported, run the single-hand filter on hand 0,
run the per-hand filter on every hand, and aggregate the first two hands'
gestures and handedness labels; if zero hands are reported, emit the reset
snapshots, set `wasGrabbingRef.current = false` and clear the per-hand ref
dictionaries (the other single-hand refs are left as they are). -/
def onResults (sqrt : α → α) (st : TrackerState α) (f : Frame α) : Option (TrackerState α) :=
  match f.multiHandLandmarks with
  | [] =>
      some { st with
        gesture := noHandGesture α
        single := { st.single with wasGrabbing := false }
        twoHandGesture := resetTwoHandGesture α
        perHand := fun _ => initialPinchState α }
  | landmarks0 :: _ =>
      match processLandmarks sqrt landmarks0 st.single with
      | none => none
      | some sg =>
          match processAllHands sqrt f.multiHandLandmarks 0 st.perHand with
          | none => none
          | some pg =>
              let handGestures := pg.2
              let two := processTwoHandGesture sqrt
                (handGestures.get? 0) (handGestures.get? 1)
                (Option.join (f.multiHandedness.get? 0))
                (Option.join (f.multiHandedness.get? 1))
              some { single := sg.1
                     perHand := pg.1
                     gesture := sg.2
                     twoHandGesture := two
                     prevPullDistance := two.pullDistance }

/-- Run `onResults` over a sequence of frames. -/
def runFrames (sqrt : α → α) (st : TrackerState α) : List (Frame α) → Option (TrackerState α)
  | [] => some st
  | f :: rest =>
      match onResults sqrt st f with
      | none => none
      | some st' => runFrames sqrt st' rest

/-! ## Helper lemmas about the per-hand filter step -/

/-- The smoothed pinch distance computed by one filter step. -/
def smoothedPinchNext (s : PinchState α) (rawPinchDistance : α) : α :=
  s.smoothedPinchDistance + PINCH_SMOOTHING α * (rawPinchDistance - s.smoothedPinchDistance)

/-- The hysteresis target computed by one filter step on raw pinch distance
`rawPinchDistance` (it only looks at the new smoothed value). -/
def coreTarget (s : PinchState α) (rawPinchDistance : α) : Bool :=
  hysteresisTarget s.wasGrabbing (smoothedPinchNext s rawPinchDistance)

theorem core_smoothedPinchDistance (d : α) (p : HandLandmark α) (s : PinchState α) :
    (processHandLandmarksCore d p s).1.smoothedPinchDistance = smoothedPinchNext s d := rfl

theorem core_wasGrabbing (d : α) (p : HandLandmark α) (s : PinchState α) :
    (processHandLandmarksCore d p s).1.wasGrabbing =
      (debounce s.wasGrabbing s.pendingState s.stateChangeCounter (coreTarget s d)).1 := rfl

theorem core_pendingState (d : α) (p : HandLandmark α) (s : PinchState α) :
    (processHandLandmarksCore d p s).1.pendingState =
      (debounce s.wasGrabbing s.pendingState s.stateChangeCounter (coreTarget s d)).2.1 := rfl

theorem core_stateChangeCounter (d : α) (p : HandLandmark α) (s : PinchState α) :
    (processHandLandmarksCore d p s).1.stateChangeCounter =
      (debounce s.wasGrabbing s.pendingState s.stateChangeCounter (coreTarget s d)).2.2 := rfl

theorem hysteresisTarget_eq_self (g : Bool) (dval : α)
    (h1 : ¬ dval < PINCH_THRESHOLD α) (h2 : ¬ dval > PINCH_RELEASE_THRESHOLD α) :
    hysteresisTarget g dval = g := by
  cases g <;> simp [hysteresisTarget, h1, h2]

theorem debounce_self (g : Bool) (p : Option Bool) (c : Nat) :
    debounce g p c g = (g, none, 0) := by
  simp [debounce]

theorem debounce_new_candidate (g t : Bool) (p : Option Bool) (c : Nat)
    (hne : t ≠ g) (hp : p ≠ some t) : debounce g p c t = (g, some t, 1) := by
  simp [debounce, hne, hp]

theorem debounce_fst_ne (g t : Bool) (p : Option Bool) (c : Nat)
    (h : (debounce g p c t).1 ≠ g) :
    t ≠ g ∧ p = some t ∧ STATE_CHANGE_FRAMES ≤ c + 1 ∧ (debounce g p c t).1 = t := by
  unfold debounce at h ⊢
  split_ifs at h ⊢ <;> simp_all

/-- C3 — Hysteresis: along any run of per-hand filter steps all of whose
smoothed pinch-distance samples lie strictly between `T_close = 0.055` and
`T_open = 0.16`, the committed `isGrabbing` value never changes: once
committed `true` it stays `true` until a sample exceeds `T_open`, and once
committed `false` it stays `false` until a sample falls below `T_close`. -/
theorem hysteresis_gap_holds (s : PinchState α) (inputs : List (α × HandLandmark α))
    (h : ∀ s' ∈ coreTrace s inputs,
        PINCH_THRESHOLD α < s'.smoothedPinchDistance ∧
        s'.smoothedPinchDistance < PINCH_RELEASE_THRESHOLD α) :
    ∀ s' ∈ coreTrace s inputs, s'.wasGrabbing = s.wasGrabbing := by
  induction inputs generalizing s with
  | nil => intro s' hs'; simp [coreTrace] at hs'
  | cons dp rest ih =>
      obtain ⟨d, p⟩ := dp
      have hhead := h (processHandLandmarksCore d p s).1 (by simp [coreTrace])
      have hstep : (processHandLandmarksCore d p s).1.wasGrabbing = s.wasGrabbing := by
        rw [core_wasGrabbing]
        rw [core_smoothedPinchDistance] at hhead
        have ht : coreTarget s d = s.wasGrabbing :=
          hysteresisTarget_eq_self _ _ (not_lt.mpr (le_of_lt hhead.1))
            (not_lt.mpr (le_of_lt hhead.2))
        rw [ht, debounce_self]
      intro s' hs'
      simp only [coreTrace, List.mem_cons] at hs'
      rcases hs' with hs' | hs'
      · rw [hs', hstep]
      · have htail := ih (processHandLandmarksCore d p s).1
          (fun s'' hs'' => h s'' (by simp [coreTrace, List.mem_cons]; right; exact hs''))
        rw [htail s' hs', hstep]

/-- C3 witness: a concrete run whose single smoothed sample `0.1` lies in the
hysteresis gap keeps `isGrabbing` at its committed value. -/
theorem hysteresis_gap_holds_witness :
    ({ wasGrabbing := false, stateChangeCounter := 0, pendingState := none,
       smoothedPosition := some ⟨1, 1, 0⟩, smoothedPinchDistance := 1/10 } :
        PinchState ℚ).wasGrabbing =
      ({ wasGrabbing := false, stateChangeCounter := 0, pendingState := none,
         smoothedPosition := none, smoothedPinchDistance := 1/10 } : PinchState ℚ).wasGrabbing :=
  hysteresis_gap_holds
    ({ wasGrabbing := false, stateChangeCounter := 0, pendingState := none,
       smoothedPosition := none, smoothedPinchDistance := 1/10 } : PinchState ℚ)
    [((1 : ℚ)/10, ⟨0, 0, 0⟩)]
    (by norm_num [coreTrace, processHandLandmarksCore, smoothPosition, smoothedPinchNext,
        PINCH_THRESHOLD, PINCH_RELEASE_THRESHOLD, PINCH_SMOOTHING, hysteresisTarget, debounce,
        coreTarget])
    _
    (by norm_num [coreTrace, processHandLandmarksCore, smoothPosition, smoothedPinchNext,
        PINCH_THRESHOLD, PINCH_RELEASE_THRESHOLD, PINCH_SMOOTHING, hysteresisTarget, debounce,
        coreTarget])

theorem core_step_new_candidate (d : α) (p : HandLandmark α) (s : PinchState α)
    (ht : coreTarget s d ≠ s.wasGrabbing) (hp : s.pendingState ≠ some (coreTarget s d)) :
    (processHandLandmarksCore d p s).1.wasGrabbing = s.wasGrabbing ∧
    (processHandLandmarksCore d p s).1.pendingState = some (coreTarget s d) ∧
    (processHandLandmarksCore d p s).1.stateChangeCounter = 1 := by
  rw [core_wasGrabbing, core_pendingState, core_stateChangeCounter,
    debounce_new_candidate _ _ _ _ ht hp]
  exact ⟨rfl, rfl, rfl⟩

theorem core_step_target_committed (d : α) (p : HandLandmark α) (s : PinchState α)
    (ht : coreTarget s d = s.wasGrabbing) :
    (processHandLandmarksCore d p s).1.wasGrabbing = s.wasGrabbing ∧
    (processHandLandmarksCore d p s).1.pendingState = none ∧
    (processHandLandmarksCore d p s).1.stateChangeCounter = 0 := by
  rw [core_wasGrabbing, core_pendingState, core_stateChangeCounter, ht, debounce_self]
  exact ⟨rfl, rfl, rfl⟩

/-- C4 — Debounce invariant for a per-hand filter step: (i) the committed
`isGrabbing` changes only on a frame whose hysteresis target differs from it,
agrees with the stored pending candidate and whose incremented counter reaches
`STATE_CHANGE_FRAMES = 2`; (ii) a frame whose target differs from both the
committed value and the pending candidate records the new candidate with
counter 1 and leaves the committed value unchanged; (iii) a frame whose
target equals the committed value clears the pending candidate and counter;
(iv) a one-frame spike (fresh candidate) followed by a reverting frame never
changes the committed value. -/
theorem debounce_invariant_holds :
    (∀ (s : PinchState α) (d : α) (p : HandLandmark α),
        (processHandLandmarksCore d p s).1.wasGrabbing ≠ s.wasGrabbing →
          coreTarget s d ≠ s.wasGrabbing ∧ s.pendingState = some (coreTarget s d) ∧
          STATE_CHANGE_FRAMES ≤ s.stateChangeCounter + 1 ∧
          (processHandLandmarksCore d p s).1.wasGrabbing = coreTarget s d) ∧
    (∀ (s : PinchState α) (d : α) (p : HandLandmark α),
        coreTarget s d ≠ s.wasGrabbing → s.pendingState ≠ some (coreTarget s d) →
          (processHandLandmarksCore d p s).1.wasGrabbing = s.wasGrabbing ∧
          (processHandLandmarksCore d p s).1.pendingState = some (coreTarget s d) ∧
          (processHandLandmarksCore d p s).1.stateChangeCounter = 1) ∧
    (∀ (s : PinchState α) (d : α) (p : HandLandmark α),
        coreTarget s d = s.wasGrabbing →
          (processHandLandmarksCore d p s).1.wasGrabbing = s.wasGrabbing ∧
          (processHandLandmarksCore d p s).1.pendingState = none ∧
          (processHandLandmarksCore d p s).1.stateChangeCounter = 0) ∧
    (∀ (s : PinchState α) (d1 d2 : α) (p1 p2 : HandLandmark α),
        coreTarget s d1 ≠ s.wasGrabbing → s.pendingState ≠ some (coreTarget s d1) →
        coreTarget (processHandLandmarksCore d1 p1 s).1 d2 =
          (processHandLandmarksCore d1 p1 s).1.wasGrabbing →
          (processHandLandmarksCore d1 p1 s).1.wasGrabbing = s.wasGrabbing ∧
          (processHandLandmarksCore d2 p2 (processHandLandmarksCore d1 p1 s).1).1.wasGrabbing =
            s.wasGrabbing) := by
  refine ⟨?_, ?_, ?_, ?_⟩
  · intro s d p h
    rw [core_wasGrabbing] at h
    obtain ⟨h1, h2, h3, h4⟩ := debounce_fst_ne _ _ _ _ h
    exact ⟨h1, h2, h3, by rw [core_wasGrabbing, h4]⟩
  · intro s d p ht hp
    exact core_step_new_candidate d p s ht hp
  · intro s d p ht
    exact core_step_target_committed d p s ht
  · intro s d1 d2 p1 p2 ht hp hrev
    have h1 := core_step_new_candidate d1 p1 s ht hp
    have h2 := core_step_target_committed d2 p2 (processHandLandmarksCore d1 p1 s).1 hrev
    exact ⟨h1.1, h2.1.trans h1.1⟩

/-- C4 witness: concrete spike — from a non-grabbing state with smoothed
distance 0.06, a raw sample 0.04 produces a fresh `true` candidate, and a
reverting raw sample 0.2 clears it; the committed value stays `false`. -/
theorem debounce_invariant_holds_witness :
    (processHandLandmarksCore ((4 : ℚ)/100) ⟨0, 0, 0⟩
        { wasGrabbing := false, stateChangeCounter := 0, pendingState := none,
          smoothedPosition := none, smoothedPinchDistance := 6/100 }).1.wasGrabbing =
      ({ wasGrabbing := false, stateChangeCounter := 0, pendingState := none,
         smoothedPosition := none, smoothedPinchDistance := 6/100 } :
          PinchState ℚ).wasGrabbing ∧
    (processHandLandmarksCore ((2 : ℚ)/10) ⟨0, 0, 0⟩
        (processHandLandmarksCore ((4 : ℚ)/100) ⟨0, 0, 0⟩
          { wasGrabbing := false, stateChangeCounter := 0, pendingState := none,
            smoothedPosition := none, smoothedPinchDistance := 6/100 }).1).1.wasGrabbing =
      ({ wasGrabbing := false, stateChangeCounter := 0, pendingState := none,
         smoothedPosition := none, smoothedPinchDistance := 6/100 } :
          PinchState ℚ).wasGrabbing :=
  debounce_invariant_holds.2.2.2
    ({ wasGrabbing := false, stateChangeCounter := 0, pendingState := none,
       smoothedPosition := none, smoothedPinchDistance := 6/100 } : PinchState ℚ)
    ((4 : ℚ)/100) ((2 : ℚ)/10) ⟨0, 0, 0⟩ ⟨0, 0, 0⟩
    (by norm_num [coreTarget, smoothedPinchNext, hysteresisTarget,
        PINCH_THRESHOLD, PINCH_RELEASE_THRESHOLD, PINCH_SMOOTHING])
    (by simp)
    (by norm_num [coreTarget, smoothedPinchNext, hysteresisTarget, debounce, smoothPosition,
        processHandLandmarksCore, PINCH_THRESHOLD, PINCH_RELEASE_THRESHOLD, PINCH_SMOOTHING])

theorem core_smoothedPosition (d : α) (p : HandLandmark α) (s : PinchState α) :
    (processHandLandmarksCore d p s).1.smoothedPosition =
      some (smoothPosition s.smoothedPosition ⟨-(p.x * 2 - 1), -(p.y * 2 - 1), p.z⟩) := rfl

/-- C7 — Smoothing update: each per-hand filter step updates the smoothed
position by `smoothed + 0.4 * (raw - smoothed)` componentwise (where `raw`
is the transformed anchor `(-(2x-1), -(2y-1), z)`), seeds it directly from
the raw transformed value when it was `null`, and updates the smoothed pinch
distance by `smoothed + 0.5 * (raw - smoothed)`. -/
theorem smoothing_update_formula (s : PinchState α) (d : α) (p : HandLandmark α) :
    (s.smoothedPosition = none →
      (processHandLandmarksCore d p s).1.smoothedPosition =
        some ⟨-(p.x * 2 - 1), -(p.y * 2 - 1), p.z⟩) ∧
    (∀ q, s.smoothedPosition = some q →
      (processHandLandmarksCore d p s).1.smoothedPosition =
        some ⟨q.x + (4 : α)/10 * (-(p.x * 2 - 1) - q.x),
              q.y + (4 : α)/10 * (-(p.y * 2 - 1) - q.y),
              q.z + (4 : α)/10 * (p.z - q.z)⟩) ∧
    (processHandLandmarksCore d p s).1.smoothedPinchDistance =
      s.smoothedPinchDistance + (5 : α)/10 * (d - s.smoothedPinchDistance) := by
  refine ⟨?_, ?_, rfl⟩
  · intro h
    rw [core_smoothedPosition, h]
    rfl
  · intro q h
    rw [core_smoothedPosition, h]
    rfl

/-- C7 witness: concrete smoothing step from a previously seeded state. -/
theorem smoothing_update_formula_witness :
    (processHandLandmarksCore ((1 : ℚ)/2) ⟨1/4, 1/2, 1/8⟩
        { wasGrabbing := false, stateChangeCounter := 0, pendingState := none,
          smoothedPosition := some ⟨0, 0, 0⟩,
          smoothedPinchDistance := 1 }).1.smoothedPosition =
      some ⟨0 + (4 : ℚ)/10 * (-((1 : ℚ)/4 * 2 - 1) - 0),
            0 + (4 : ℚ)/10 * (-((1 : ℚ)/2 * 2 - 1) - 0),
            0 + (4 : ℚ)/10 * ((1 : ℚ)/8 - 0)⟩ ∧
    (processHandLandmarksCore ((1 : ℚ)/2) ⟨1/4, 1/2, 1/8⟩
        { wasGrabbing := false, stateChangeCounter := 0, pendingState := none,
          smoothedPosition := some ⟨0, 0, 0⟩,
          smoothedPinchDistance := 1 }).1.smoothedPinchDistance =
      1 + (5 : ℚ)/10 * ((1 : ℚ)/2 - 1) :=
  ⟨(smoothing_update_formula
      ({ wasGrabbing := false, stateChangeCounter := 0, pendingState := none,
         smoothedPosition := some ⟨0, 0, 0⟩, smoothedPinchDistance := 1 } : PinchState ℚ)
      ((1 : ℚ)/2) ⟨1/4, 1/2, 1/8⟩).2.1 ⟨0, 0, 0⟩ rfl,
   (smoothing_update_formula
      ({ wasGrabbing := false, stateChangeCounter := 0, pendingState := none,
         smoothedPosition := some ⟨0, 0, 0⟩, smoothedPinchDistance := 1 } : PinchState ℚ)
      ((1 : ℚ)/2) ⟨1/4, 1/2, 1/8⟩).2.2⟩

/-- The raw pinch-distance sequence of the single-hand scenario in the spec:
`[0.2, 0.2, 0.05, 0.05, 0.2]`, each frame with an arbitrary fixed raw hand
position. -/
def scenarioInputs : List (ℚ × HandLandmark ℚ) :=
  [(2/10, ⟨0, 0, 0⟩), (2/10, ⟨0, 0, 0⟩), (5/100, ⟨0, 0, 0⟩),
   (5/100, ⟨0, 0, 0⟩), (2/10, ⟨0, 0, 0⟩)]

/-- C9 counterexample: feeding the raw pinch sequence `[0.2,0.2,0.05,0.05,0.2]`
to the per-hand filter from its initial state (smoothed pinch distance 1),
`isGrabbing` is never committed to `true`: it is `false` after every one of
the five frames, and so is every emitted `isGrabbing` — there is no commit
frame at all, contrary to the claim. -/
theorem scenario_commit_counterexample :
    ((coreTrace (initialPinchState ℚ) scenarioInputs).map PinchState.wasGrabbing) =
      [false, false, false, false, false] ∧
    ((runCore (initialPinchState ℚ) scenarioInputs).2.map GestureState.isGrabbing) =
      [false, false, false, false, false] := by
  norm_num [scenarioInputs, coreTrace, runCore, processHandLandmarksCore, smoothPosition,
    hysteresisTarget, debounce, initialPinchState, PINCH_THRESHOLD, PINCH_RELEASE_THRESHOLD,
    PINCH_SMOOTHING, STATE_CHANGE_FRAMES]

/-- C9 (amended) — with smoothing factor 0.5 seeded from the initial smoothed
pinch distance 1, the smoothed sequence for raw `[0.2,0.2,0.05,0.05,0.2]` is
`[0.6, 0.4, 0.225, 0.1375, 0.16875]`; every smoothed sample stays at or above
`T_close = 0.055`, so no grab candidate is ever recorded and `isGrabbing`
remains `false` at every frame (no commit occurs). -/
theorem scenario_no_commit :
    ((coreTrace (initialPinchState ℚ) scenarioInputs).map PinchState.smoothedPinchDistance) =
      [3/5, 2/5, 9/40, 11/80, 27/160] ∧
    (([3/5, 2/5, 9/40, 11/80, 27/160] : List ℚ).all
        (fun q => decide (PINCH_THRESHOLD ℚ ≤ q)) = true) ∧
    ((coreTrace (initialPinchState ℚ) scenarioInputs).map PinchState.pendingState) =
      [none, none, none, none, none] ∧
    ((coreTrace (initialPinchState ℚ) scenarioInputs).map PinchState.wasGrabbing) =
      [false, false, false, false, false] := by
  norm_num [scenarioInputs, coreTrace, processHandLandmarksCore, smoothPosition,
    hysteresisTarget, debounce, initialPinchState, PINCH_THRESHOLD, PINCH_RELEASE_THRESHOLD,
    PINCH_SMOOTHING, STATE_CHANGE_FRAMES, List.all]

/-! ## Two-hand aggregator lemmas -/

theorem derivedTwoHand_leftHand (sqrt : α → α) (l r : Option (GestureState α)) :
    (derivedTwoHand sqrt l r).leftHand = l := rfl

theorem derivedTwoHand_rightHand (sqrt : α → α) (l r : Option (GestureState α)) :
    (derivedTwoHand sqrt l r).rightHand = r := rfl

theorem derivedTwoHand_isPulling_iff (sqrt : α → α) (l r : Option (GestureState α)) :
    ((derivedTwoHand sqrt l r).isPulling = true ↔
      (Option.elim l false GestureState.isGrabbing = true ∧
       Option.elim r false GestureState.isGrabbing = true ∧
       MIN_PULL_DISTANCE α < (derivedTwoHand sqrt l r).pullDistance)) := by
  cases l <;> cases r <;>
    simp [derivedTwoHand, Bool.and_eq_true, decide_eq_true_iff, gt_iff_lt, Option.elim,
      and_assoc]

theorem derivedTwoHand_pullDistance_eq (sqrt : α → α) (l r : Option (GestureState α))
    (lp rp : HandLandmark α) (hl : Option.bind l GestureState.handPosition = some lp)
    (hr : Option.bind r GestureState.handPosition = some rp) :
    (derivedTwoHand sqrt l r).pullDistance =
      sqrt ((rp.x - lp.x) * (rp.x - lp.x) + (rp.y - lp.y) * (rp.y - lp.y)) := by
  simp [derivedTwoHand, hl, hr]

theorem derivedTwoHand_pullDistance_zero (sqrt : α → α) (l r : Option (GestureState α))
    (h : Option.bind l GestureState.handPosition = none ∨
      Option.bind r GestureState.handPosition = none) :
    (derivedTwoHand sqrt l r).pullDistance = 0 := by
  rcases h with h | h
  · simp [derivedTwoHand, h]
  · rcases hb : Option.bind l GestureState.handPosition with _ | lp <;>
      simp [derivedTwoHand, h, hb]

/-- Spec-side definition: Euclidean distance between two points in the
2D `(x, y)` plane, `z` excluded. -/
noncomputable def euclideanDistance2D (p q : HandLandmark ℝ) : ℝ :=
  Real.sqrt ((q.x - p.x) ^ 2 + (q.y - p.y) ^ 2)

/-- C5 — Pull gate: in every emitted `TwoHandGestureState`, `isPulling` is
true iff both assigned hands report `isGrabbing = true` and `pullDistance`
exceeds `MIN_PULL_DISTANCE = 0.15` (hence false whenever either role is
unassigned); `pullDistance` is the Euclidean 2D `(x,y)` distance between the
left and right smoothed positions when both are present, and `0` otherwise. -/
theorem pull_gate_correct (hand0 hand1 : Option (GestureState ℝ)) (hd0 hd1 : Option String) :
    ((processTwoHandGesture Real.sqrt hand0 hand1 hd0 hd1).isPulling = true ↔
      (Option.elim (processTwoHandGesture Real.sqrt hand0 hand1 hd0 hd1).leftHand false
          GestureState.isGrabbing = true ∧
       Option.elim (processTwoHandGesture Real.sqrt hand0 hand1 hd0 hd1).rightHand false
          GestureState.isGrabbing = true ∧
       MIN_PULL_DISTANCE ℝ <
         (processTwoHandGesture Real.sqrt hand0 hand1 hd0 hd1).pullDistance)) ∧
    (∀ lp rp,
        Option.bind (processTwoHandGesture Real.sqrt hand0 hand1 hd0 hd1).leftHand
          GestureState.handPosition = some lp →
        Option.bind (processTwoHandGesture Real.sqrt hand0 hand1 hd0 hd1).rightHand
          GestureState.handPosition = some rp →
        (processTwoHandGesture Real.sqrt hand0 hand1 hd0 hd1).pullDistance =
          euclideanDistance2D lp rp) ∧
    ((Option.bind (processTwoHandGesture Real.sqrt hand0 hand1 hd0 hd1).leftHand
        GestureState.handPosition = none ∨
      Option.bind (processTwoHandGesture Real.sqrt hand0 hand1 hd0 hd1).rightHand
        GestureState.handPosition = none) →
      (processTwoHandGesture Real.sqrt hand0 hand1 hd0 hd1).pullDistance = 0) := by
  refine ⟨derivedTwoHand_isPulling_iff _ _ _, ?_, derivedTwoHand_pullDistance_zero _ _ _⟩
  intro lp rp hl hr
  unfold processTwoHandGesture at hl hr ⊢
  rw [derivedTwoHand_leftHand] at hl
  rw [derivedTwoHand_rightHand] at hr
  rw [derivedTwoHand_pullDistance_eq Real.sqrt _ _ lp rp hl hr, euclideanDistance2D]
  congr 1
  ring

/-- C5 witness: two labelled pinching hands at 2D distance 0.2. -/
theorem pull_gate_correct_witness :
    (processTwoHandGesture Real.sqrt
        (some { isGrabbing := true, handPosition := some ⟨0, 0, 0⟩,
                pinchDistance := 0, confidence := 1 })
        (some { isGrabbing := true, handPosition := some ⟨1/5, 0, 0⟩,
                pinchDistance := 0, confidence := 1 })
        (some "Left") (some "Right")).pullDistance =
      euclideanDistance2D ⟨0, 0, 0⟩ ⟨1/5, 0, 0⟩ :=
  (pull_gate_correct
      (some { isGrabbing := true, handPosition := some ⟨0, 0, 0⟩,
              pinchDistance := 0, confidence := 1 })
      (some { isGrabbing := true, handPosition := some ⟨1/5, 0, 0⟩,
              pinchDistance := 0, confidence := 1 })
      (some "Left") (some "Right")).2.1 ⟨0, 0, 0⟩ ⟨1/5, 0, 0⟩ rfl rfl

/-- C10 — when both detected hands carry the handedness label "Left", the
second hand overwrites the first in the left role: `leftHand` is hand 1,
`rightHand` is unassigned, and consequently `bothPinching`, `isPulling` are
false and `pullDistance = 0` regardless of either hand's pinch state; if the
two gestures differ, hand 0's gesture appears in neither role. -/
theorem both_left_overwrites (sqrt : α → α) (h0 h1 : GestureState α) :
    (processTwoHandGesture sqrt (some h0) (some h1) (some "Left") (some "Left")).leftHand =
      some h1 ∧
    (processTwoHandGesture sqrt (some h0) (some h1) (some "Left") (some "Left")).rightHand =
      none ∧
    (processTwoHandGesture sqrt (some h0) (some h1) (some "Left") (some "Left")).bothPinching =
      false ∧
    (processTwoHandGesture sqrt (some h0) (some h1) (some "Left") (some "Left")).pullDistance =
      0 ∧
    (processTwoHandGesture sqrt (some h0) (some h1) (some "Left") (some "Left")).isPulling =
      false ∧
    (h0 ≠ h1 →
      (processTwoHandGesture sqrt (some h0) (some h1) (some "Left") (some "Left")).leftHand ≠
        some h0 ∧
      (processTwoHandGesture sqrt (some h0) (some h1) (some "Left") (some "Left")).rightHand ≠
        some h0) := by
  refine ⟨rfl, rfl, ?_, ?_, ?_, ?_⟩
  · simp [processTwoHandGesture, assignRoles, derivedTwoHand]
  · simp [processTwoHandGesture, assignRoles, derivedTwoHand]
  · simp [processTwoHandGesture, assignRoles, derivedTwoHand]
  · intro hne
    refine ⟨?_, by simp [processTwoHandGesture, assignRoles, derivedTwoHand]⟩
    rw [show (processTwoHandGesture sqrt (some h0) (some h1) (some "Left")
        (some "Left")).leftHand = some h1 from rfl]
    simp [Ne.symm hne]

/-- C10 witness: two concrete distinct gestures, both labelled "Left". -/
theorem both_left_overwrites_witness :
    (processTwoHandGesture (fun x => x)
        (some ({ isGrabbing := true, handPosition := some ⟨0, 0, 0⟩,
                 pinchDistance := 0, confidence := 1 } : GestureState ℚ))
        (some ({ isGrabbing := true, handPosition := some ⟨1, 0, 0⟩,
                 pinchDistance := 1, confidence := 1 } : GestureState ℚ))
        (some "Left") (some "Left")).leftHand ≠
      some ({ isGrabbing := true, handPosition := some ⟨0, 0, 0⟩,
              pinchDistance := 0, confidence := 1 } : GestureState ℚ) ∧
    (processTwoHandGesture (fun x => x)
        (some ({ isGrabbing := true, handPosition := some ⟨0, 0, 0⟩,
                 pinchDistance := 0, confidence := 1 } : GestureState ℚ))
        (some ({ isGrabbing := true, handPosition := some ⟨1, 0, 0⟩,
                 pinchDistance := 1, confidence := 1 } : GestureState ℚ))
        (some "Left") (some "Left")).rightHand ≠
      some ({ isGrabbing := true, handPosition := some ⟨0, 0, 0⟩,
              pinchDistance := 0, confidence := 1 } : GestureState ℚ) :=
  (both_left_overwrites (fun x => x)
      ({ isGrabbing := true, handPosition := some ⟨0, 0, 0⟩,
         pinchDistance := 0, confidence := 1 } : GestureState ℚ)
      ({ isGrabbing := true, handPosition := some ⟨1, 0, 0⟩,
         pinchDistance := 1, confidence := 1 } : GestureState ℚ)).2.2.2.2.2
    (by simp)

/-! ## Malformed landmark lists (C2) -/

/-- C2 counterexample: on an empty landmark list the per-hand filter faults
(`none` models the JavaScript `TypeError` on `landmarks[4].x`) instead of
treating the hand as absent; and a hand with only 9 landmarks (fewer than
21) is processed normally — from the initial state its persisted smoothed
pinch distance changes from 1 to 0.5, so the slot state is not left
untouched. -/
theorem malformed_hand_counterexample :
    processHandLandmarks Real.sqrt ([] : List (HandLandmark ℝ)) (initialPinchState ℝ) =
      none ∧
    (((processHandLandmarks Real.sqrt
          ([⟨0, 0, 0⟩, ⟨0, 0, 0⟩, ⟨0, 0, 0⟩, ⟨0, 0, 0⟩, ⟨0, 0, 0⟩, ⟨0, 0, 0⟩, ⟨0, 0, 0⟩,
            ⟨0, 0, 0⟩, ⟨0, 0, 0⟩] : List (HandLandmark ℝ))
          (initialPinchState ℝ)).map Prod.fst).map PinchState.smoothedPinchDistance) =
      some (1/2) ∧
    (1 : ℝ)/2 ≠ (initialPinchState ℝ).smoothedPinchDistance := by
  refine ⟨rfl, ?_, by norm_num [initialPinchState]⟩
  norm_num [processHandLandmarks, calculatePinchDistance, calculateHandCenter,
    THUMB_TIP, INDEX_TIP, processHandLandmarksCore, smoothPosition, hysteresisTarget,
    debounce, initialPinchState, PINCH_THRESHOLD, PINCH_RELEASE_THRESHOLD, PINCH_SMOOTHING,
    POSITION_SMOOTHING, STATE_CHANGE_FRAMES]

/-- C2 (amended) — a hand whose landmark list is missing `THUMB_TIP`/`INDEX_TIP`
(fewer than 9 landmarks) makes the per-hand filter fault before performing
any state update (the slot's persisted state is untouched only because the
frame aborts), and a hand with at least 9 landmarks — including malformed
hands with 9–20 landmarks — is processed normally, updating the slot state;
in neither case is the hand "treated as absent". -/
theorem malformed_hand_faults :
    (∀ (sqrt : α → α) (landmarks : List (HandLandmark α)) (s : PinchState α),
        landmarks.length < 9 → processHandLandmarks sqrt landmarks s = none) ∧
    (∀ (sqrt : α → α) (landmarks : List (HandLandmark α)) (s : PinchState α),
        8 < landmarks.length → (processHandLandmarks sqrt landmarks s).isSome = true) := by
  constructor
  · intro sqrt lm s h
    have h8 : lm.get? INDEX_TIP = none := by
      rw [INDEX_TIP, List.get?_eq_none]
      omega
    rcases h4 : lm.get? THUMB_TIP with _ | t <;>
      simp [processHandLandmarks, calculatePinchDistance, calculateHandCenter,
        ← List.get?_eq_getElem?, h4, h8]
  · intro sqrt lm s h
    have h4 : THUMB_TIP < lm.length := by rw [THUMB_TIP]; omega
    have h8 : INDEX_TIP < lm.length := by rw [INDEX_TIP]; omega
    have ht := List.get?_eq_get h4
    have hi := List.get?_eq_get h8
    simp [processHandLandmarks, calculatePinchDistance, calculateHandCenter,
      ← List.get?_eq_getElem?, ht, hi]

/-- C2 (amended) witness: the fault case at the empty list and the
processed-normally case at a 9-landmark hand, both from the initial state. -/
theorem malformed_hand_faults_witness :
    processHandLandmarks (fun x => x) ([] : List (HandLandmark ℚ)) (initialPinchState ℚ) =
      none ∧
    (processHandLandmarks (fun x => x)
        ([⟨0, 0, 0⟩, ⟨0, 0, 0⟩, ⟨0, 0, 0⟩, ⟨0, 0, 0⟩, ⟨0, 0, 0⟩, ⟨0, 0, 0⟩, ⟨0, 0, 0⟩,
          ⟨0, 0, 0⟩, ⟨0, 0, 0⟩] : List (HandLandmark ℚ))
        (initialPinchState ℚ)).isSome = true :=
  ⟨malformed_hand_faults.1 (fun x => x) [] (initialPinchState ℚ) (by simp),
   malformed_hand_faults.2 (fun x => x)
     ([⟨0, 0, 0⟩, ⟨0, 0, 0⟩, ⟨0, 0, 0⟩, ⟨0, 0, 0⟩, ⟨0, 0, 0⟩, ⟨0, 0, 0⟩, ⟨0, 0, 0⟩,
       ⟨0, 0, 0⟩, ⟨0, 0, 0⟩] : List (HandLandmark ℚ))
     (initialPinchState ℚ) (by simp)⟩

/-! ## Coordinate contract (C8) -/

theorem core_handPosition (d : α) (c : HandLandmark α) (s : PinchState α) :
    (processHandLandmarksCore d c s).2.handPosition =
      some (smoothPosition s.smoothedPosition ⟨-(c.x * 2 - 1), -(c.y * 2 - 1), c.z⟩) := rfl

theorem processHandLandmarks_eq_some (sqrt : α → α) (lm : List (HandLandmark α))
    (s : PinchState α) (out : PinchState α × GestureState α)
    (h : processHandLandmarks sqrt lm s = some out) :
    ∃ t i, lm.get? THUMB_TIP = some t ∧ lm.get? INDEX_TIP = some i ∧
      out = processHandLandmarksCore
        (sqrt ((t.x - i.x) * (t.x - i.x) + (t.y - i.y) * (t.y - i.y) +
          (t.z - i.z) * (t.z - i.z)))
        ⟨(t.x + i.x) / 2, (t.y + i.y) / 2, (t.z + i.z) / 2⟩ s := by
  rcases ht : lm.get? THUMB_TIP with _ | t <;>
    rcases hi : lm.get? INDEX_TIP with _ | i <;>
      simp [processHandLandmarks, calculatePinchDistance, calculateHandCenter,
        ← List.get?_eq_getElem?, ht, hi] at h
  exact ⟨t, i, rfl, rfl, h.symm⟩

theorem smoothPosition_range (prev : Option (HandLandmark α)) (raw : HandLandmark α)
    (hr : -1 ≤ raw.x ∧ raw.x ≤ 1 ∧ -1 ≤ raw.y ∧ raw.y ≤ 1)
    (hp : ∀ q, prev = some q → -1 ≤ q.x ∧ q.x ≤ 1 ∧ -1 ≤ q.y ∧ q.y ≤ 1) :
    -1 ≤ (smoothPosition prev raw).x ∧ (smoothPosition prev raw).x ≤ 1 ∧
    -1 ≤ (smoothPosition prev raw).y ∧ (smoothPosition prev raw).y ≤ 1 := by
  cases prev with
  | none => simpa [smoothPosition] using hr
  | some p =>
      obtain ⟨h1, h2, h3, h4⟩ := hp p rfl
      obtain ⟨r1, r2, r3, r4⟩ := hr
      simp only [smoothPosition, POSITION_SMOOTHING]
      refine ⟨by linarith, by linarith, by linarith, by linarith⟩

theorem core_pos_range (d : α) (c : HandLandmark α) (s : PinchState α)
    (hc : 0 ≤ c.x ∧ c.x ≤ 1 ∧ 0 ≤ c.y ∧ c.y ≤ 1)
    (hs : ∀ q, s.smoothedPosition = some q →
      -1 ≤ q.x ∧ q.x ≤ 1 ∧ -1 ≤ q.y ∧ q.y ≤ 1) :
    ∀ q, (processHandLandmarksCore d c s).1.smoothedPosition = some q →
      -1 ≤ q.x ∧ q.x ≤ 1 ∧ -1 ≤ q.y ∧ q.y ≤ 1 := by
  intro q hq
  rw [core_smoothedPosition, Option.some.injEq] at hq
  obtain ⟨c1, c2, c3, c4⟩ := hc
  subst hq
  exact smoothPosition_range s.smoothedPosition _
    ⟨by dsimp; linarith, by dsimp; linarith, by dsimp; linarith, by dsimp; linarith⟩ hs

theorem runHand_pos_range (sqrt : α → α) (frames : List (List (HandLandmark α)))
    (s : PinchState α) (out : PinchState α × List (GestureState α))
    (hframes : ∀ lm ∈ frames, ∀ q ∈ lm, 0 ≤ q.x ∧ q.x ≤ 1 ∧ 0 ≤ q.y ∧ q.y ≤ 1)
    (hs : ∀ q, s.smoothedPosition = some q →
      -1 ≤ q.x ∧ q.x ≤ 1 ∧ -1 ≤ q.y ∧ q.y ≤ 1)
    (h : runHand sqrt s frames = some out) :
    (∀ q, out.1.smoothedPosition = some q →
      -1 ≤ q.x ∧ q.x ≤ 1 ∧ -1 ≤ q.y ∧ q.y ≤ 1) ∧
    (∀ g ∈ out.2, ∀ q, g.handPosition = some q →
      -1 ≤ q.x ∧ q.x ≤ 1 ∧ -1 ≤ q.y ∧ q.y ≤ 1) := by
  induction frames generalizing s out with
  | nil =>
      simp only [runHand, Option.some.injEq] at h
      subst h
      exact ⟨hs, by simp⟩
  | cons lm rest ih =>
      rcases hp : processHandLandmarks sqrt lm s with _ | sg
      · simp only [runHand, hp] at h
        exact Option.noConfusion h
      rcases hr : runHand sqrt sg.1 rest with _ | next
      · simp only [runHand, hp, hr] at h
        exact Option.noConfusion h
      simp only [runHand, hp, hr, Option.some.injEq] at h
      subst h
      obtain ⟨t, i, ht, hi, hout⟩ := processHandLandmarks_eq_some sqrt lm s sg hp
      have hct := hframes lm (by simp) t (List.get?_mem ht)
      have hci := hframes lm (by simp) i (List.get?_mem hi)
      have hmid : (0:α) ≤ (t.x + i.x) / 2 ∧ (t.x + i.x) / 2 ≤ 1 ∧
          (0:α) ≤ (t.y + i.y) / 2 ∧ (t.y + i.y) / 2 ≤ 1 := by
        obtain ⟨a1, a2, a3, a4⟩ := hct
        obtain ⟨b1, b2, b3, b4⟩ := hci
        refine ⟨by linarith, by linarith, by linarith, by linarith⟩
      have hstep : ∀ q, sg.1.smoothedPosition = some q →
          -1 ≤ q.x ∧ q.x ≤ 1 ∧ -1 ≤ q.y ∧ q.y ≤ 1 := by
        rw [hout]
        exact core_pos_range _ _ _ hmid hs
      have hsame : sg.2.handPosition = sg.1.smoothedPosition := by
        rw [hout, core_handPosition, core_smoothedPosition]
      obtain ⟨hfin, hgs⟩ := ih sg.1 next (fun l hl => hframes l (by simp [hl])) hstep hr
      refine ⟨hfin, ?_⟩
      intro g hg q hq
      rcases List.mem_cons.mp hg with hg | hg
      · subst hg
        rw [hsame] at hq
        exact hstep q hq
      · exact hgs g hg q hq

/-- C8 — Coordinate contract: (a) the anchor position is the midpoint of
`THUMB_TIP` and `INDEX_TIP` transformed by `cx = -(2x-1)`, `cy = -(2y-1)`
with `z` passed through unchanged (visible verbatim on a slot's first frame,
where the smoothed position is seeded from the raw transformed value);
(b) for every frame sequence whose landmark `x`, `y` coordinates all lie in
`[0,1]`, every non-null emitted `handPosition` has `x`, `y` in `[-1,1]`. -/
theorem coordinate_contract :
    (∀ (sqrt : α → α) (lm : List (HandLandmark α)) (s : PinchState α)
        (t i : HandLandmark α),
        lm.get? THUMB_TIP = some t → lm.get? INDEX_TIP = some i →
        s.smoothedPosition = none →
        (processHandLandmarks sqrt lm s).map (fun sg => sg.2.handPosition) =
          some (some ⟨-(2 * ((t.x + i.x) / 2) - 1), -(2 * ((t.y + i.y) / 2) - 1),
            (t.z + i.z) / 2⟩)) ∧
    (∀ (sqrt : α → α) (frames : List (List (HandLandmark α)))
        (out : PinchState α × List (GestureState α)),
        (∀ lm ∈ frames, ∀ q ∈ lm, 0 ≤ q.x ∧ q.x ≤ 1 ∧ 0 ≤ q.y ∧ q.y ≤ 1) →
        runHand sqrt (initialPinchState α) frames = some out →
        ∀ g ∈ out.2, ∀ q, g.handPosition = some q →
          -1 ≤ q.x ∧ q.x ≤ 1 ∧ -1 ≤ q.y ∧ q.y ≤ 1) := by
  constructor
  · intro sqrt lm s t i ht hi hnone
    have hcc : processHandLandmarks sqrt lm s =
        some (processHandLandmarksCore
          (sqrt ((t.x - i.x) * (t.x - i.x) + (t.y - i.y) * (t.y - i.y) +
            (t.z - i.z) * (t.z - i.z)))
          ⟨(t.x + i.x) / 2, (t.y + i.y) / 2, (t.z + i.z) / 2⟩ s) := by
      simp [processHandLandmarks, calculatePinchDistance, calculateHandCenter,
        ← List.get?_eq_getElem?, ht, hi]
    have hx : -(((t.x + i.x) / 2) * 2 - 1) = -(2 * ((t.x + i.x) / 2) - 1) := by ring
    have hy : -(((t.y + i.y) / 2) * 2 - 1) = -(2 * ((t.y + i.y) / 2) - 1) := by ring
    rw [hcc, Option.map_some', core_handPosition, hnone]
    dsimp only [smoothPosition]
    rw [hx, hy]
  · intro sqrt frames out hframes h
    exact (runHand_pos_range sqrt frames (initialPinchState α) out hframes
      (by simp [initialPinchState]) h).2

/-- C8 witness: a first frame with all nine landmarks at `(1/2, 1/2, 0)`;
the emitted hand position is the transformed midpoint. -/
theorem coordinate_contract_witness :
    (processHandLandmarks (fun x => x)
        ([⟨1/2, 1/2, 0⟩, ⟨1/2, 1/2, 0⟩, ⟨1/2, 1/2, 0⟩, ⟨1/2, 1/2, 0⟩, ⟨1/2, 1/2, 0⟩,
          ⟨1/2, 1/2, 0⟩, ⟨1/2, 1/2, 0⟩, ⟨1/2, 1/2, 0⟩, ⟨1/2, 1/2, 0⟩] :
            List (HandLandmark ℚ))
        (initialPinchState ℚ)).map (fun sg => sg.2.handPosition) =
      some (some ⟨-(2 * (((1:ℚ)/2 + 1/2) / 2) - 1), -(2 * (((1:ℚ)/2 + 1/2) / 2) - 1),
        ((0:ℚ) + 0) / 2⟩) :=
  coordinate_contract.1 (fun x => x)
    ([⟨1/2, 1/2, 0⟩, ⟨1/2, 1/2, 0⟩, ⟨1/2, 1/2, 0⟩, ⟨1/2, 1/2, 0⟩, ⟨1/2, 1/2, 0⟩,
      ⟨1/2, 1/2, 0⟩, ⟨1/2, 1/2, 0⟩, ⟨1/2, 1/2, 0⟩, ⟨1/2, 1/2, 0⟩] : List (HandLandmark ℚ))
    (initialPinchState ℚ) ⟨1/2, 1/2, 0⟩ ⟨1/2, 1/2, 0⟩ (by simp [THUMB_TIP])
    (by simp [INDEX_TIP]) rfl

/-! ## The frame driver: zero-hands reset (C1) and the single-hand /
slot-0 relationship (C6) -/

theorem get?_replicate {β : Type} (a : β) (n i : Nat) :
    (List.replicate n a).get? i = if i < n then some a else none := by
  induction n generalizing i with
  | zero => simp
  | succ m ih =>
      cases i with
      | zero => simp [List.replicate]
      | succ k => simp [List.replicate, ← List.get?_eq_getElem?, ih, Nat.succ_lt_succ_iff]

/-- A detector frame reporting a single "Right" hand with all 21 landmarks
at the origin (raw pinch distance 0, which `Real.sqrt` maps to 0 exactly). -/
def pinchedHandFrame : Frame ℝ :=
  { multiHandLandmarks := [List.replicate 21 ⟨0, 0, 0⟩]
    multiHandedness := [some "Right"] }

/-- A detector frame reporting zero hands. -/
def zeroHandFrame : Frame ℝ :=
  { multiHandLandmarks := [], multiHandedness := [] }

theorem calculatePinchDistance_replicate0 :
    calculatePinchDistance Real.sqrt (List.replicate 21 (⟨0, 0, 0⟩ : HandLandmark ℝ)) =
      some 0 := by
  norm_num [calculatePinchDistance, ← List.get?_eq_getElem?, get?_replicate,
    THUMB_TIP, INDEX_TIP, Real.sqrt_zero]

theorem calculateHandCenter_replicate0 :
    calculateHandCenter (List.replicate 21 (⟨0, 0, 0⟩ : HandLandmark ℝ)) =
      some ⟨0, 0, 0⟩ := by
  norm_num [calculateHandCenter, ← List.get?_eq_getElem?, get?_replicate,
    THUMB_TIP, INDEX_TIP]

theorem twoHand_right_only (sqrt : α → α) (h0 : GestureState α) :
    processTwoHandGesture sqrt (some h0) none (some "Right") none =
      { bothPinching := false, pullDistance := 0, centerPosition := none,
        leftHand := none, rightHand := some h0, isPulling := false } := by
  have hRL : ¬ (("Right" : String) = "Left") := by simp
  simp [processTwoHandGesture, assignRoles, derivedTwoHand, hRL]

theorem onResults_pinched (st : TrackerState ℝ) :
    onResults Real.sqrt st pinchedHandFrame = some
      { single := (processLandmarksCore 0 ⟨0, 0, 0⟩ st.single).1
        perHand := fun j => if j = 0 then
            (processHandLandmarksCore 0 ⟨0, 0, 0⟩ (st.perHand 0)).1 else st.perHand j
        gesture := (processLandmarksCore 0 ⟨0, 0, 0⟩ st.single).2
        twoHandGesture :=
          { bothPinching := false, pullDistance := 0, centerPosition := none,
            leftHand := none,
            rightHand := some (processHandLandmarksCore 0 ⟨0, 0, 0⟩ (st.perHand 0)).2,
            isPulling := false }
        prevPullDistance := 0 } := by
  simp only [onResults, pinchedHandFrame, processLandmarks, processHandLandmarks,
    processAllHands, calculatePinchDistance_replicate0, calculateHandCenter_replicate0,
    List.get?_cons_zero, List.get?_cons_succ, List.get?_nil, Option.join]
  norm_num [twoHand_right_only]

theorem onResults_zero (st : TrackerState ℝ) :
    onResults Real.sqrt st zeroHandFrame = some
      { st with gesture := noHandGesture ℝ
                single := { st.single with wasGrabbing := false }
                twoHandGesture := resetTwoHandGesture ℝ
                perHand := fun _ => initialPinchState ℝ } := rfl

/-- C1 counterexample: after one hand-frame (raw pinch distance 0) followed
by a zero-hands frame, the single-hand filter's persisted smoothed pinch
distance is still 0.5, not the initial value 1 — the zero-hands branch only
resets `wasGrabbingRef` among the single-hand refs, so the
backward-compatible single-hand filter state is not reset to its initial
values as the claim asserts. -/
theorem zero_hands_reset_counterexample :
    ((runFrames Real.sqrt (initialTrackerState ℝ) [pinchedHandFrame, zeroHandFrame]).map
        (fun st => st.single.smoothedPinchDistance)) = some (1/2) ∧
    (1 : ℝ)/2 ≠ 1 := by
  refine ⟨?_, by norm_num⟩
  simp only [runFrames, onResults_pinched, onResults_zero]
  norm_num [processLandmarksCore, initialTrackerState, initialPinchState, PINCH_SMOOTHING,
    smoothPosition, hysteresisTarget, debounce, PINCH_THRESHOLD, PINCH_RELEASE_THRESHOLD,
    STATE_CHANGE_FRAMES]

/-- C1 (amended) — on a zero-hands frame, regardless of history: the emitted
single-hand `GestureState` is exactly `{isGrabbing := false, handPosition :=
none, pinchDistance := 1, confidence := 0}`, every per-hand slot state is
reset to its initial values, the two-hand snapshot is reset — but of the
single-hand filter refs only `wasGrabbing` is reset to `false`; its smoothed
position, smoothed pinch distance and pending debounce state are retained. -/
theorem zero_hands_reset (sqrt : α → α) (st : TrackerState α) (f : Frame α)
    (hf : f.multiHandLandmarks = []) :
    (onResults sqrt st f).map TrackerState.gesture =
      some { isGrabbing := false, handPosition := none,
             pinchDistance := 1, confidence := 0 } ∧
    (∀ i, (onResults sqrt st f).map (fun st' => st'.perHand i) =
      some (initialPinchState α)) ∧
    (onResults sqrt st f).map TrackerState.twoHandGesture =
      some (resetTwoHandGesture α) ∧
    (onResults sqrt st f).map TrackerState.single =
      some { st.single with wasGrabbing := false } := by
  simp only [onResults, hf]
  exact ⟨rfl, fun i => rfl, rfl, rfl⟩

/-- C1 (amended) witness: the zero-hands reset on the initial tracker state. -/
theorem zero_hands_reset_witness :
    (onResults (fun x => x) (initialTrackerState ℚ)
        ({ multiHandLandmarks := [], multiHandedness := [] } : Frame ℚ)).map
      TrackerState.gesture =
      some { isGrabbing := false, handPosition := none,
             pinchDistance := 1, confidence := 0 } ∧
    (onResults (fun x => x) (initialTrackerState ℚ)
        ({ multiHandLandmarks := [], multiHandedness := [] } : Frame ℚ)).map
      (fun st' => st'.perHand 0) = some (initialPinchState ℚ) ∧
    (onResults (fun x => x) (initialTrackerState ℚ)
        ({ multiHandLandmarks := [], multiHandedness := [] } : Frame ℚ)).map
      TrackerState.twoHandGesture = some (resetTwoHandGesture ℚ) ∧
    (onResults (fun x => x) (initialTrackerState ℚ)
        ({ multiHandLandmarks := [], multiHandedness := [] } : Frame ℚ)).map
      TrackerState.single =
      some { (initialTrackerState ℚ).single with wasGrabbing := false } :=
  ⟨(zero_hands_reset (fun x => x) (initialTrackerState ℚ) ⟨[], []⟩ rfl).1,
   (zero_hands_reset (fun x => x) (initialTrackerState ℚ) ⟨[], []⟩ rfl).2.1 0,
   (zero_hands_reset (fun x => x) (initialTrackerState ℚ) ⟨[], []⟩ rfl).2.2.1,
   (zero_hands_reset (fun x => x) (initialTrackerState ℚ) ⟨[], []⟩ rfl).2.2.2⟩

theorem processLandmarks_eq_processHandLandmarks (sqrt : α → α)
    (landmarks : List (HandLandmark α)) (s : PinchState α) :
    processLandmarks sqrt landmarks s = processHandLandmarks sqrt landmarks s := rfl

theorem processAllHands_lt (sqrt : α → α) (lms : List (List (HandLandmark α))) (i : Nat)
    (perHand : Nat → PinchState α) (out : (Nat → PinchState α) × List (GestureState α))
    (h : processAllHands sqrt lms i perHand = some out) :
    ∀ j < i, out.1 j = perHand j := by
  induction lms generalizing i perHand out with
  | nil =>
      simp only [processAllHands, Option.some.injEq] at h
      subst h
      intro j hj
      rfl
  | cons lm rest ih =>
      rcases hp : processHandLandmarks sqrt lm (perHand i) with _ | sg
      · simp only [processAllHands, hp] at h
        exact Option.noConfusion h
      rcases hr : processAllHands sqrt rest (i + 1)
          (fun j => if j = i then sg.1 else perHand j) with _ | next
      · simp only [processAllHands, hp, hr] at h
        exact Option.noConfusion h
      simp only [processAllHands, hp, hr, Option.some.injEq] at h
      subst h
      intro j hj
      have hnext := ih (i + 1) _ next hr j (by omega)
      rw [hnext]
      simp [Nat.ne_of_lt hj]

theorem processAllHands_head (sqrt : α → α) (lm : List (HandLandmark α))
    (rest : List (List (HandLandmark α))) (i : Nat) (perHand : Nat → PinchState α)
    (out : (Nat → PinchState α) × List (GestureState α))
    (h : processAllHands sqrt (lm :: rest) i perHand = some out) :
    ∃ sg, processHandLandmarks sqrt lm (perHand i) = some sg ∧
      out.1 i = sg.1 ∧ out.2.get? 0 = some sg.2 := by
  rcases hp : processHandLandmarks sqrt lm (perHand i) with _ | sg
  · simp only [processAllHands, hp] at h
    exact Option.noConfusion h
  rcases hr : processAllHands sqrt rest (i + 1)
      (fun j => if j = i then sg.1 else perHand j) with _ | next
  · simp only [processAllHands, hp, hr] at h
    exact Option.noConfusion h
  simp only [processAllHands, hp, hr, Option.some.injEq] at h
  subst h
  refine ⟨sg, hp.symm.trans hp, ?_, rfl⟩
  have hnext := processAllHands_lt sqrt rest (i + 1) _ next hr i (by omega)
  rw [hnext]
  simp

theorem onResults_hand_single_eq_slot0 (sqrt : α → α) (st : TrackerState α) (f : Frame α)
    (st' : TrackerState α) (lm0 : List (HandLandmark α))
    (rest : List (List (HandLandmark α))) (hf : f.multiHandLandmarks = lm0 :: rest)
    (heq : st.single = st.perHand 0) (h : onResults sqrt st f = some st') :
    st'.single = st'.perHand 0 ∧
    ∃ sg, processHandLandmarks sqrt lm0 (st.perHand 0) = some sg ∧
      st'.gesture = sg.2 ∧ st'.perHand 0 = sg.1 ∧ st'.single = sg.1 := by
  rcases hpl : processLandmarks sqrt lm0 st.single with _ | sg0
  · simp only [onResults, hf, hpl] at h
    exact Option.noConfusion h
  rcases hall : processAllHands sqrt (lm0 :: rest) 0 st.perHand with _ | pg
  · simp only [onResults, hf, hpl, hall] at h
    exact Option.noConfusion h
  simp only [onResults, hf, hpl, hall, Option.some.injEq] at h
  subst h
  obtain ⟨sg, hsg, hslot, hget⟩ := processAllHands_head sqrt lm0 rest 0 st.perHand pg hall
  have hpl' : processHandLandmarks sqrt lm0 (st.perHand 0) = some sg0 := by
    rw [← heq, ← processLandmarks_eq_processHandLandmarks]
    exact hpl
  have hsgeq : sg0 = sg := Option.some.inj (hpl'.symm.trans hsg)
  subst hsgeq
  exact ⟨hslot.symm, sg0, hsg, rfl, hslot, rfl⟩

theorem runFrames_single_eq_slot0 (sqrt : α → α) (frames : List (Frame α))
    (st st' : TrackerState α) (hall : ∀ f ∈ frames, f.multiHandLandmarks ≠ [])
    (heq : st.single = st.perHand 0) (h : runFrames sqrt st frames = some st') :
    st'.single = st'.perHand 0 := by
  induction frames generalizing st with
  | nil =>
      simp only [runFrames, Option.some.injEq] at h
      subst h
      exact heq
  | cons f rest ih =>
      rcases ho : onResults sqrt st f with _ | st1
      · simp only [runFrames, ho] at h
        exact Option.noConfusion h
      simp only [runFrames, ho] at h
      rcases hlm : f.multiHandLandmarks with _ | ⟨lm0, lmrest⟩
      · exact absurd hlm (hall f (by simp))
      have hstep :=
        (onResults_hand_single_eq_slot0 sqrt st f st1 lm0 lmrest hlm heq ho).1
      exact ih st1 (fun fr hfr => hall fr (List.mem_cons_of_mem f hfr)) hstep h

/-- C6 (amended) — on every frame with at least one hand, the emitted
single-hand `GestureState` equals the `GestureState` computed by the
per-hand filter for slot 0, provided every preceding frame of the session
also reported at least one hand.  (A preceding zero-hands frame breaks the
equality, because it fully resets slot 0 while retaining the single-hand
filter's smoothing state — see the counterexample.) -/
theorem single_gesture_matches_slot0 (sqrt : α → α) (frames : List (Frame α))
    (st' : TrackerState α) (hall : ∀ f ∈ frames, f.multiHandLandmarks ≠ [])
    (hrun : runFrames sqrt (initialTrackerState α) frames = some st')
    (f : Frame α) (lm0 : List (HandLandmark α)) (rest : List (List (HandLandmark α)))
    (hf : f.multiHandLandmarks = lm0 :: rest) (g : GestureState α)
    (hg : (onResults sqrt st' f).map TrackerState.gesture = some g) :
    (processHandLandmarks sqrt lm0 (st'.perHand 0)).map Prod.snd = some g := by
  have heq := runFrames_single_eq_slot0 sqrt frames _ st' hall rfl hrun
  rcases ho : onResults sqrt st' f with _ | st''
  · rw [ho] at hg
    exact Option.noConfusion hg
  obtain ⟨-, sg, hsg, hgest, -, -⟩ :=
    onResults_hand_single_eq_slot0 sqrt st' f st'' lm0 rest hf heq ho
  rw [ho, Option.map_some', Option.some.injEq] at hg
  rw [hsg, Option.map_some', ← hg, hgest]

/-- C6 (amended) witness: the very first frame of a session, with one "Right"
hand: the emitted single-hand gesture is the slot-0 gesture. -/
theorem single_gesture_matches_slot0_witness :
    (processHandLandmarks Real.sqrt (List.replicate 21 ⟨0, 0, 0⟩)
        ((initialTrackerState ℝ).perHand 0)).map Prod.snd =
      some (processLandmarksCore 0 ⟨0, 0, 0⟩ (initialTrackerState ℝ).single).2 :=
  single_gesture_matches_slot0 Real.sqrt [] (initialTrackerState ℝ) (by simp) rfl
    pinchedHandFrame (List.replicate 21 ⟨0, 0, 0⟩) [] rfl
    (processLandmarksCore 0 ⟨0, 0, 0⟩ (initialTrackerState ℝ).single).2
    (by rw [onResults_pinched]; rfl)

/-- C6 counterexample: run hand-frame, zero-hands frame, hand-frame (always
the same hand, raw pinch distance 0).  On the third frame the emitted
single-hand gesture has smoothed pinch distance 0.25 (single-hand refs kept
their smoothing across the reset), while the per-hand filter for slot 0
(fully reset by the zero-hands frame) emits 0.5 — the two gestures differ,
so the claimed equality fails for histories containing a zero-hands frame. -/
theorem single_gesture_counterexample :
    ((runFrames Real.sqrt (initialTrackerState ℝ)
        [pinchedHandFrame, zeroHandFrame, pinchedHandFrame]).map
      (fun st => st.gesture.pinchDistance)) = some (1/4) ∧
    ((runFrames Real.sqrt (initialTrackerState ℝ) [pinchedHandFrame, zeroHandFrame]).map
      (fun st => (processHandLandmarks Real.sqrt (List.replicate 21 ⟨0, 0, 0⟩)
          (st.perHand 0)).map (fun sg => sg.2.pinchDistance))) = some (some (1/2)) ∧
    (1 : ℝ)/4 ≠ (1 : ℝ)/2 := by
  refine ⟨?_, ?_, by norm_num⟩
  · simp only [runFrames, onResults_pinched, onResults_zero]
    norm_num [processLandmarksCore, initialTrackerState, initialPinchState, PINCH_SMOOTHING,
      smoothPosition, hysteresisTarget, debounce, PINCH_THRESHOLD, PINCH_RELEASE_THRESHOLD,
      STATE_CHANGE_FRAMES]
  · simp only [runFrames, onResults_pinched, onResults_zero, processHandLandmarks,
      calculatePinchDistance_replicate0, calculateHandCenter_replicate0]
    norm_num [processHandLandmarksCore, initialTrackerState, initialPinchState,
      PINCH_SMOOTHING, smoothPosition, hysteresisTarget, debounce, PINCH_THRESHOLD,
      PINCH_RELEASE_THRESHOLD, STATE_CHANGE_FRAMES]

end HandTracking
